import Mathlib

/-!
Shallow embedding of the matrixon demo AI bot (src/scripts/demo_ai_bot.py).

The bot keeps a mutable session (access token, user id, sync cursor) and runs
a poll/route/dispatch loop.  Stateful Python methods are embedded as pure
functions from an explicit state plus the outcome of the network call they
perform; fallible paths return Option or an explicit outcome type.
-/

namespace MatrixonAIBot

/-- Fixed bot credentials, from the module-level configuration constants. -/
def BOT_USERNAME : String := "demo_ai_bot"

/-- Fixed bot password, from the module-level configuration constants. -/
def BOT_PASSWORD : String := "AIBotDemo123!"

/-- Credentials carried by a registration or login request body. -/
structure Credentials where
  username : String
  password : String
deriving Repr, DecidableEq

/-- Payload fields the bot reads out of a register/login response body:
access_token, user_id, optional device_id, and the optional errcode that a
failure body carries. -/
structure AuthData where
  access_token : String
  user_id : String
  device_id : Option String
  errcode : Option String
deriving Repr, DecidableEq

/-- Outcome of one HTTP call as the bot observes it: either a response with a
status code and a JSON body, or a raised transport exception. -/
inductive HttpOutcome where
  | response (status : Nat) (data : AuthData)
  | exception (msg : String)
deriving Repr, DecidableEq

/-- Credentials placed in the registration request body (register_bot). -/
def registerRequestCreds : Credentials := ⟨BOT_USERNAME, BOT_PASSWORD⟩

/-- Credentials placed in the login request body (login_bot). -/
def loginRequestCreds : Credentials := ⟨BOT_USERNAME, BOT_PASSWORD⟩

/-- login_bot: a 200 response stores the returned token/identity and
succeeds; any other status, or a raised exception, fails (returns False in
the source, modelled as none). -/
def login_bot : HttpOutcome → Option AuthData
  | .response status d => if status = 200 then some d else none
  | .exception _ => none

/-- register_bot: a 200 response stores the returned token/identity; a
non-200 response whose errcode (defaulted to "UNKNOWN") is "M_USER_IN_USE"
falls back to login_bot; any other non-200 response, or a raised exception,
fails.  The login response the fallback would consume is passed explicitly. -/
def register_bot (regResp loginResp : HttpOutcome) : Option AuthData :=
  match regResp with
  | .response status d =>
      if status = 200 then some d
      else if d.errcode.getD "UNKNOWN" = "M_USER_IN_USE" then login_bot loginResp
      else none
  | .exception _ => none

/-- setup_profile: any HTTP response (200 or not) returns True — a non-200
status is only logged as a warning, marked non-critical in the source; a
raised exception is logged and returns False. -/
def setup_profile : HttpOutcome → Bool
  | .response _ _ => true
  | .exception _ => false

/-- Outcome of the startup sequence at the top of run(): register/login
failure returns early before the loop (authAborted); a falsy setup_profile
also returns early (profileAborted); otherwise the sync loop starts.
Failure of create_demo_room does not abort (only logged). -/
inductive StartupOutcome where
  | authAborted
  | profileAborted
  | started (auth : AuthData)
deriving Repr, DecidableEq

/-- The startup prefix of run(): register_bot (with login fallback), then
setup_profile; each falsy result aborts startup with an early return. -/
def runStartup (regResp loginResp profileResp : HttpOutcome) : StartupOutcome :=
  match register_bot regResp loginResp with
  | none => .authAborted
  | some a => if setup_profile profileResp then .started a else .profileAborted

/-- One timeline entry as the router reads it: the "type" field, the
"sender" field and the "content"."body" field, each possibly absent. -/
structure Event where
  type : Option String
  sender : Option String
  body : Option String
deriving Repr, DecidableEq

/-- The sync response body the bot consumes: the "next_batch" cursor and the
"rooms"."join" mapping, each room id with its "timeline"."events" list. -/
structure SyncData where
  next_batch : String
  joinedRooms : List (String × List Event)
deriving Repr, DecidableEq

/-- Mutable bot session state read and written by the sync loop: the sync
cursor (None before the first successful poll). -/
structure BotState where
  sync_token : Option String
deriving Repr, DecidableEq

/-- Outcome of one long-poll request as sync_events observes it. -/
inductive PollResult where
  | success (data : SyncData)
  | httpError (status : Nat)
  | timeout
  | transportError (msg : String)
deriving Repr, DecidableEq

/-- Query parameters sync_events sends: a fixed timeout of 10000 ms and,
when a cursor is held, a "since" parameter carrying it. -/
structure SyncRequest where
  timeout : Nat
  since : Option String
deriving Repr, DecidableEq

/-- The request sync_events builds from the current state. -/
def buildSyncRequest (st : BotState) : SyncRequest :=
  ⟨10000, st.sync_token⟩

/-- sync_events: on a 200 response the cursor is overwritten with the
returned next_batch and the body is returned; a non-200 status, a timeout,
or a raised exception leaves the state untouched and returns the empty dict
(modelled as none).  All exceptions are caught inside this method. -/
def sync_events (st : BotState) (r : PollResult) : BotState × Option SyncData :=
  match r with
  | .success d => (⟨some d.next_batch⟩, some d)
  | .httpError _ => (st, none)
  | .timeout => (st, none)
  | .transportError _ => (st, none)

/-- State reached after a sequence of poll rounds, each applying
sync_events to the state it left behind. -/
def stateAfterRounds (st : BotState) (rs : List PollResult) : BotState :=
  rs.foldl (fun s r => (sync_events s r).1) st

/-- A message the router hands onward: handle_command for a "!"-prefixed
body, handle_ai_response otherwise.  Fields: room id, body, sender. -/
inductive Action where
  | command (room_id : String) (body : String) (sender : String)
  | aiResponse (room_id : String) (body : String) (sender : String)
deriving Repr, DecidableEq

/-- Sender identity carried by a routed action. -/
def Action.sender : Action → String
  | .command _ _ s => s
  | .aiResponse _ _ s => s

/-- Python str.startswith on the underlying character sequences. -/
def strStartsWith (s pre : String) : Bool :=
  pre.toList.isPrefixOf s.toList

/-- handle_message_event: reads sender and content.body with "" defaults,
drops the event when the sender equals the bot's own user_id, then
classifies by the "!" prefix.  In Python sender == self.user_id compares a
str with an Optional str, so it holds exactly when user_id is some sender. -/
def handle_message_event (user_id : Option String) (room_id : String)
    (e : Event) : Option Action :=
  let sender := e.sender.getD ""
  let message_body := e.body.getD ""
  if user_id = some sender then none
  else if strStartsWith message_body "!" then some (.command room_id message_body sender)
  else some (.aiResponse room_id message_body sender)

/-- Inner loop of process_events over one room's timeline: only entries of
type "m.room.message" are handed to handle_message_event. -/
def processRoom (user_id : Option String) (room_id : String)
    (events : List Event) : List Action :=
  events.filterMap fun e =>
    if e.type = some "m.room.message" then handle_message_event user_id room_id e
    else none

/-- process_events: walks rooms.join and routes each room's timeline events
in order, producing the actions handed to the dispatcher or the response
generator. -/
def process_events (user_id : Option String) (sd : SyncData) : List Action :=
  sd.joinedRooms.flatMap fun p => processRoom user_id p.1 p.2

/-- One iteration of the sync loop body in run(): poll, and when the poll
returned a truthy body, route it with the already-updated state. -/
def runIteration (user_id : Option String) (st : BotState) (r : PollResult) :
    BotState × List Action :=
  match sync_events st r with
  | (st2, some d) => (st2, process_events user_id d)
  | (st2, none) => (st2, [])

/-- Delay in milliseconds taken after one loop iteration in run(): every
iteration that does not raise sleeps 0.1 s; an exception escaping the try
body sleeps 5 s.  sync_events catches its own exceptions, so only event
processing (run on a truthy poll body) can raise. -/
def iterationDelayMs (st : BotState) (r : PollResult)
    (processingRaises : Bool) : Nat :=
  match (sync_events st r).2 with
  | some _ => if processingRaises then 5000 else 100
  | none => 100

/-- Token of the arithmetic fragment the calculator accepts. -/
inductive Tok where
  | num (n : Nat)
  | add
  | sub
  | mul
  | pow
  | div
  | lparen
  | rparen
deriving Repr, DecidableEq

/-- Lexer for the arithmetic fragment: digits form integer literals, spaces
are skipped, the five operators and parentheses are recognised, and any
other character makes the whole input fail (landing in the bare except of
cmd_calculate).  The pending digit accumulator threads a literal being
read. -/
def tokenizeAux : List Char → Option Nat → Option (List Tok)
  | [], none => some []
  | [], some n => some [.num n]
  | c :: cs, acc =>
      if c.isDigit then
        tokenizeAux cs (some ((acc.getD 0) * 10 + (c.toNat - 48)))
      else
        let rest :=
          if c = ' ' then tokenizeAux cs none
          else if c = '+' then (tokenizeAux cs none).map (Tok.add :: ·)
          else if c = '-' then (tokenizeAux cs none).map (Tok.sub :: ·)
          else if c = '*' then (tokenizeAux cs none).map (Tok.mul :: ·)
          else if c = '/' then (tokenizeAux cs none).map (Tok.div :: ·)
          else if c = '^' then (tokenizeAux cs none).map (Tok.pow :: ·)
          else if c = '(' then (tokenizeAux cs none).map (Tok.lparen :: ·)
          else if c = ')' then (tokenizeAux cs none).map (Tok.rparen :: ·)
          else none
        match acc with
        | none => rest
        | some n => rest.map (Tok.num n :: ·)

/-- cmd_calculate replaces "^" with "**" before evaluating, and Python
reads "**" as the power operator; two adjacent mul tokens are therefore
one power token. -/
def mergeStars : List Tok → List Tok
  | [] => []
  | .mul :: .mul :: ts => .pow :: mergeStars ts
  | t :: ts => t :: mergeStars ts

/-- Exact numeric value of the arithmetic fragment, kept in lowest terms:
an integer result has den = 1 and its str() form is the bare integer. -/
structure PyNum where
  num : Int
  den : Nat
deriving Repr, DecidableEq

/-- Canonical fraction with the given numerator and positive denominator. -/
def PyNum.norm (n : Int) (d : Nat) : PyNum :=
  let g := Nat.gcd n.natAbs d
  if g = 0 then ⟨0, 1⟩ else ⟨n / (g : Int), d / g⟩

/-- Addition on fragment values. -/
def PyNum.add (x y : PyNum) : PyNum :=
  PyNum.norm (x.num * (y.den : Int) + y.num * (x.den : Int)) (x.den * y.den)

/-- Subtraction on fragment values. -/
def PyNum.sub (x y : PyNum) : PyNum :=
  PyNum.norm (x.num * (y.den : Int) - y.num * (x.den : Int)) (x.den * y.den)

/-- Multiplication on fragment values. -/
def PyNum.mul (x y : PyNum) : PyNum :=
  PyNum.norm (x.num * y.num) (x.den * y.den)

/-- Negation on fragment values. -/
def PyNum.neg (x : PyNum) : PyNum :=
  ⟨-x.num, x.den⟩

/-- Division on fragment values; dividing by zero raises
ZeroDivisionError in Python, modelled as none. -/
def PyNum.divOpt (x y : PyNum) : Option PyNum :=
  if y.num = 0 then none
  else
    let s : Int := if y.num < 0 then -1 else 1
    some (PyNum.norm (s * (x.num * (y.den : Int))) ((x.den : Int) * y.num).natAbs)

/-- Natural-number power on fragment values. -/
def PyNum.npow (b : PyNum) : Nat → PyNum
  | 0 => ⟨1, 1⟩
  | k + 1 => b.mul (b.npow k)

/-- Exponentiation as Python applies it on the fragment: an integral
exponent raises exactly (a negative exponent inverts, and 0 to a negative
power raises ZeroDivisionError, so fails); a fractional exponent leaves
the fragment and is treated as a failure. -/
def PyNum.powOpt (b e : PyNum) : Option PyNum :=
  if e.den = 1 then
    if 0 ≤ e.num then some (b.npow e.num.toNat)
    else PyNum.divOpt ⟨1, 1⟩ (b.npow (-e.num).toNat)
  else none

mutual

/-- Additive level of Python's expression grammar on the fragment:
term followed by any number of + or - continuations. -/
def parseExpr (fuel : Nat) (ts : List Tok) : Option (PyNum × List Tok) :=
  match fuel with
  | 0 => none
  | fuel + 1 =>
      match parseTerm fuel ts with
      | none => none
      | some (v, rest) => parseExprRest fuel v rest

/-- Left-associative + and - continuations. -/
def parseExprRest (fuel : Nat) (acc : PyNum) (ts : List Tok) :
    Option (PyNum × List Tok) :=
  match fuel with
  | 0 => none
  | fuel + 1 =>
      match ts with
      | .add :: ts2 =>
          match parseTerm fuel ts2 with
          | none => none
          | some (v, rest) => parseExprRest fuel (acc.add v) rest
      | .sub :: ts2 =>
          match parseTerm fuel ts2 with
          | none => none
          | some (v, rest) => parseExprRest fuel (acc.sub v) rest
      | _ => some (acc, ts)

/-- Multiplicative level: unary followed by * or / continuations;
division by zero raises ZeroDivisionError in Python, so fails. -/
def parseTerm (fuel : Nat) (ts : List Tok) : Option (PyNum × List Tok) :=
  match fuel with
  | 0 => none
  | fuel + 1 =>
      match parseUnary fuel ts with
      | none => none
      | some (v, rest) => parseTermRest fuel v rest

/-- Left-associative * and / continuations. -/
def parseTermRest (fuel : Nat) (acc : PyNum) (ts : List Tok) :
    Option (PyNum × List Tok) :=
  match fuel with
  | 0 => none
  | fuel + 1 =>
      match ts with
      | .mul :: ts2 =>
          match parseUnary fuel ts2 with
          | none => none
          | some (v, rest) => parseTermRest fuel (acc.mul v) rest
      | .div :: ts2 =>
          match parseUnary fuel ts2 with
          | none => none
          | some (v, rest) =>
              match acc.divOpt v with
              | none => none
              | some w => parseTermRest fuel w rest
      | _ => some (acc, ts)

/-- Unary minus level. -/
def parseUnary (fuel : Nat) (ts : List Tok) : Option (PyNum × List Tok) :=
  match fuel with
  | 0 => none
  | fuel + 1 =>
      match ts with
      | .sub :: ts2 =>
          match parseUnary fuel ts2 with
          | none => none
          | some (v, rest) => some (v.neg, rest)
      | _ => parsePower fuel ts

/-- Power level, right associative as in Python. -/
def parsePower (fuel : Nat) (ts : List Tok) : Option (PyNum × List Tok) :=
  match fuel with
  | 0 => none
  | fuel + 1 =>
      match parseAtom fuel ts with
      | none => none
      | some (b, rest) =>
          match rest with
          | .pow :: ts2 =>
              match parseUnary fuel ts2 with
              | none => none
              | some (e, rest2) =>
                  match b.powOpt e with
                  | none => none
                  | some v => some (v, rest2)
          | _ => some (b, rest)

/-- Atom level: an integer literal or a parenthesised expression. -/
def parseAtom (fuel : Nat) (ts : List Tok) : Option (PyNum × List Tok) :=
  match fuel with
  | 0 => none
  | fuel + 1 =>
      match ts with
      | .num n :: rest => some ((⟨(n : Int), 1⟩ : PyNum), rest)
      | .lparen :: ts2 =>
          match parseExpr fuel ts2 with
          | none => none
          | some (v, rest) =>
              match rest with
              | .rparen :: rest2 => some (v, rest2)
              | _ => none
      | _ => none

end

/-- Evaluation of the arithmetic fragment of Python eval that cmd_calculate
feeds it: tokenize, fold "**", parse the full token list, and require no
trailing tokens.  Any lexical, syntactic or arithmetic failure is none,
landing in the bare except of cmd_calculate. -/
def evalArith (s : String) : Option PyNum :=
  match tokenizeAux s.toList none with
  | none => none
  | some toks =>
      let toks2 := mergeStars toks
      match parseExpr (4 * toks2.length + 8) toks2 with
      | some (v, []) => some v
      | _ => none

/-- Rendering of the computed value into the reply, as Python str() renders
an integer result; a non-integer rational keeps its exact fraction form. -/
def formatResult (q : PyNum) : String :=
  if q.den = 1 then toString q.num else toString q.num ++ "/" ++ toString q.den

/-- cmd_calculate: empty argument yields the usage string; otherwise the
expression is evaluated with "^" read as power, a value is formatted into
the reply, and every failure is caught by the bare except and turned into
the invalid-expression reply. -/
def cmd_calculate (args : String) : String :=
  if args = "" then "🧮 Usage: !calc <expression>\nExample: !calc 2 + 2"
  else
    match evalArith args with
    | some r => "🧮 " ++ args ++ " = " ++ formatResult r
    | none => "❌ Invalid expression: " ++ args ++ "\nTry something like: 2 + 2 or 10 * 5"

/-- Substring test on character sequences, used to state that a reply
contains a digit sequence. -/
def listContains (s sub : List Char) : Bool :=
  (List.range (s.length + 1)).any fun i => sub.isPrefixOf (s.drop i)

/-- Keys of the self.commands registry, in source order. -/
def commandTokens : List String :=
  ["!help", "!time", "!status", "!ping", "!rooms", "!stats", "!joke",
   "!weather", "!calc", "!quote"]

/-- Characters before the first space, and if one occurs the characters
after it. -/
def breakAtSpace : List Char → List Char × Option (List Char)
  | [] => ([], none)
  | c :: cs =>
      if c = ' ' then ([], some cs)
      else
        let r := breakAtSpace cs
        (c :: r.1, r.2)

/-- Python str.split(" ", 1): the text before the first space and
everything after it (further spaces preserved in the remainder); with no
space present the remainder defaults to "", as cmd_parts[1] does in the
source. -/
def splitOnce (s : String) : String × String :=
  let r := breakAtSpace s.toList
  (⟨r.1⟩, ⟨(r.2).getD []⟩)

/-- ASCII lowercasing of one character, as Python str.lower() acts on the
registry's token alphabet. -/
def charLower (c : Char) : Char :=
  if c.toNat ≥ 65 ∧ c.toNat ≤ 90 then Char.ofNat (c.toNat + 32) else c

/-- Python str.lower() on the command token (ASCII range). -/
def strToLower (s : String) : String :=
  ⟨s.toList.map charLower⟩

/-- handle_command: the first space-separated token is lowercased and
looked up in the registry; a hit increments commands_processed and invokes
the bound handler on the remaining argument text and the sender (handler
invocation abstracted, since several handlers read the clock or draw
random choices); a miss leaves the counter alone and produces the
unknown-command reply.  Returns the counter after dispatch and the reply
text. -/
def handle_command (invoke : String → String → String → String)
    (commands_processed : Nat) (command sender : String) : Nat × String :=
  let cmd_parts := splitOnce command
  let cmd := strToLower cmd_parts.1
  let args := cmd_parts.2
  if cmd ∈ commandTokens then
    (commands_processed + 1, invoke cmd args sender)
  else
    (commands_processed,
     "🤔 Unknown command: " ++ cmd ++ "\nType !help for available commands.")

/-- Helper: an action the router emits carries the sender of the event it
came from, and that sender is not the identity the router was given. -/
theorem handle_message_event_not_self (uid : Option String) (rid : String)
    (e : Event) (a : Action) (h : handle_message_event uid rid e = some a) :
    uid ≠ some a.sender := by
  simp only [handle_message_event] at h
  by_cases h1 : uid = some (e.sender.getD "")
  · simp [h1] at h
  · rw [if_neg h1] at h
    by_cases h2 : strStartsWith (e.body.getD "") "!" = true
    · rw [if_pos h2] at h
      obtain rfl := Option.some_injective _ h.symm
      simpa [Action.sender] using h1
    · rw [if_neg h2] at h
      obtain rfl := Option.some_injective _ h.symm
      simpa [Action.sender] using h1

/-- C1: in every sequence of poll rounds, a round that succeeds with cursor
next_batch leaves exactly that cursor in the state, so the request of the
following round presents it as the since parameter; and the iteration hands
the batch to the router already holding the rewritten cursor. -/
theorem sync_cursor_advances_before_dispatch (st : BotState)
    (rs : List PollResult) (d : SyncData) (uid : Option String) :
    buildSyncRequest (stateAfterRounds st (rs ++ [.success d]))
      = ⟨10000, some d.next_batch⟩
    ∧ runIteration uid (stateAfterRounds st rs) (.success d)
      = (⟨some d.next_batch⟩, process_events uid d) := by
  constructor
  · have h : stateAfterRounds st (rs ++ [.success d])
        = (sync_events (stateAfterRounds st rs) (.success d)).1 := by
      simp [stateAfterRounds, List.foldl_append]
    rw [h]
    rfl
  · rfl

/-- C2: an event whose sender is the bot's own identity is dropped by
handle_message_event, and no action the router produces from a batch
carries the bot's own identity as sender. -/
theorem self_echo_suppressed (u : String) (room_id : String) (e : Event)
    (sd : SyncData) (a : Action) :
    (e.sender.getD "" = u → handle_message_event (some u) room_id e = none)
    ∧ (a ∈ process_events (some u) sd → a.sender ≠ u) := by
  constructor
  · intro h
    simp [handle_message_event, h]
  · intro ha
    obtain ⟨p, hp, hmem⟩ := List.mem_flatMap.mp ha
    obtain ⟨e2, he2, heq⟩ := List.mem_filterMap.mp hmem
    by_cases ht : e2.type = some "m.room.message"
    · rw [if_pos ht] at heq
      intro hcontra
      exact handle_message_event_not_self (some u) p.1 e2 a heq (by rw [hcontra])
    · rw [if_neg ht] at heq
      exact absurd heq (by simp)

/-- Witness for C2 at a concrete self-authored event. -/
theorem self_echo_suppressed_witness :
    handle_message_event (some "@demo_ai_bot:localhost") "!r1:x"
      ⟨some "m.room.message", some "@demo_ai_bot:localhost", some "hi"⟩ = none :=
  (self_echo_suppressed "@demo_ai_bot:localhost" "!r1:x"
    ⟨some "m.room.message", some "@demo_ai_bot:localhost", some "hi"⟩
    ⟨"", []⟩ (Action.command "" "" "")).1 (by decide)

/-- C3: a batch with two rooms, the first holding three message entries of
which the middle one is self-authored, routes to exactly the two non-self
entries in their original order. -/
theorem two_room_batch_routing :
    process_events (some "@demo_ai_bot:localhost")
      ⟨"s1",
        [("!r1:x",
          [⟨some "m.room.message", some "@alice:x", some "hello"⟩,
           ⟨some "m.room.message", some "@demo_ai_bot:localhost", some "self echo"⟩,
           ⟨some "m.room.message", some "@bob:x", some "!ping"⟩]),
         ("!r2:x", [⟨some "m.room.member", some "@carol:x", none⟩])]⟩
    = [.aiResponse "!r1:x" "hello" "@alice:x",
       .command "!r1:x" "!ping" "@bob:x"] := by decide

/-- C4: a non-200 registration response with errcode M_USER_IN_USE falls
back to login with the same credentials; a non-200 registration with any
other errcode, or a raised exception, fails with no retry and run() aborts
startup; a non-200 or raised login likewise fails. -/
theorem register_login_fallback_or_abort (status : Nat) (d : AuthData)
    (loginResp profileResp : HttpOutcome) (msg : String) :
    (status ≠ 200 → d.errcode.getD "UNKNOWN" = "M_USER_IN_USE" →
        register_bot (.response status d) loginResp = login_bot loginResp
        ∧ loginRequestCreds = registerRequestCreds)
    ∧ (status ≠ 200 → d.errcode.getD "UNKNOWN" ≠ "M_USER_IN_USE" →
        register_bot (.response status d) loginResp = none
        ∧ runStartup (.response status d) loginResp profileResp = .authAborted)
    ∧ register_bot (.exception msg) loginResp = none
    ∧ runStartup (.exception msg) loginResp profileResp = .authAborted
    ∧ (∀ lstatus : Nat, ∀ ld : AuthData, lstatus ≠ 200 →
        login_bot (.response lstatus ld) = none)
    ∧ login_bot (.exception msg) = none := by
  refine ⟨?_, ?_, rfl, rfl, ?_, rfl⟩
  · intro h1 h2
    exact ⟨by simp [register_bot, h1, h2], rfl⟩
  · intro h1 h2
    have hreg : register_bot (.response status d) loginResp = none := by
      simp [register_bot, h1, h2]
    exact ⟨hreg, by simp [runStartup, hreg]⟩
  · intro lstatus ld h
    simp [login_bot, h]

/-- Witness for C4: the fallback branch at a concrete already-exists
response, and the abort branch at a concrete other failure. -/
theorem register_login_fallback_or_abort_witness :
    register_bot (.response 400 ⟨"", "", none, some "M_USER_IN_USE"⟩)
        (.response 200 ⟨"tok", "@demo_ai_bot:localhost", some "DEV", none⟩)
      = login_bot (.response 200 ⟨"tok", "@demo_ai_bot:localhost", some "DEV", none⟩)
    ∧ runStartup (.response 403 ⟨"", "", none, some "M_FORBIDDEN"⟩)
        (.exception "unused") (.exception "unused") = .authAborted :=
  ⟨((register_login_fallback_or_abort 400 ⟨"", "", none, some "M_USER_IN_USE"⟩
      (.response 200 ⟨"tok", "@demo_ai_bot:localhost", some "DEV", none⟩)
      (.exception "unused") "unused").1 (by decide) (by decide)).1,
   ((register_login_fallback_or_abort 403 ⟨"", "", none, some "M_FORBIDDEN"⟩
      (.exception "unused") (.exception "unused") "unused").2.1
      (by decide) (by decide)).2⟩

/-- C5 counterexample: a transport exception while setting the display name
makes setup_profile return False, and run() then aborts startup instead of
continuing — the profile failure is escalated on this path. -/
theorem profile_exception_aborts_startup :
    setup_profile (.exception "connection reset") = false
    ∧ runStartup (.response 200 ⟨"tok", "@demo_ai_bot:localhost", some "DEV", none⟩)
        (.exception "unused") (.exception "connection reset")
      = .profileAborted := by
  exact ⟨rfl, rfl⟩

/-- C5 as amended: a profile-set HTTP response of any status is
non-critical — setup_profile returns True and, after a successful
register/login, startup continues — while a raised transport exception
makes setup_profile return False and aborts startup. -/
theorem profile_failure_policy (status : Nat) (data : AuthData)
    (msg : String) (a : AuthData) (regResp loginResp : HttpOutcome)
    (h : register_bot regResp loginResp = some a) :
    setup_profile (.response status data) = true
    ∧ setup_profile (.exception msg) = false
    ∧ runStartup regResp loginResp (.response status data) = .started a
    ∧ runStartup regResp loginResp (.exception msg) = .profileAborted := by
  refine ⟨rfl, rfl, ?_, ?_⟩
  · simp [runStartup, h, setup_profile]
  · simp [runStartup, h, setup_profile]

/-- Witness for the amended C5 at a concrete successful registration. -/
theorem profile_failure_policy_witness :
    runStartup (.response 200 ⟨"tok", "@demo_ai_bot:localhost", some "DEV", none⟩)
      (.exception "unused") (.response 429 ⟨"", "", none, some "M_LIMIT_EXCEEDED"⟩)
      = .started ⟨"tok", "@demo_ai_bot:localhost", some "DEV", none⟩ :=
  (profile_failure_policy 429 ⟨"", "", none, some "M_LIMIT_EXCEEDED"⟩ "unused"
    ⟨"tok", "@demo_ai_bot:localhost", some "DEV", none⟩
    (.response 200 ⟨"tok", "@demo_ai_bot:localhost", some "DEV", none⟩)
    (.exception "unused") (by decide)).2.2.1

/-- C6 counterexample: a transport error during a poll is followed by the
same 0.1 s pacing delay as a timeout — not by a several-second cool-down —
because sync_events catches its own exceptions and the 5 s sleep is only
reached by exceptions escaping the loop body. -/
theorem poll_error_no_cooldown :
    iterationDelayMs ⟨none⟩ (.transportError "connection refused") false = 100
    ∧ iterationDelayMs ⟨none⟩ (.httpError 500) false = 100
    ∧ iterationDelayMs ⟨none⟩ .timeout false = 100
    ∧ (100 : Nat) < 5000 := by decide

/-- C6 as amended: a timeout, a transport error and a protocol error
during a poll all re-enter the loop after the fixed 0.1 s pacing delay
with no extra backoff; the fixed 5 s cool-down is taken exactly when an
exception escapes event processing inside the loop body. -/
theorem loop_delay_policy (st : BotState) (msg : String) (status : Nat)
    (d : SyncData) (b : Bool) :
    iterationDelayMs st .timeout b = 100
    ∧ iterationDelayMs st (.transportError msg) b = 100
    ∧ iterationDelayMs st (.httpError status) b = 100
    ∧ iterationDelayMs st (.success d) false = 100
    ∧ iterationDelayMs st (.success d) true = 5000 :=
  ⟨rfl, rfl, rfl, rfl, rfl⟩

/-- C7: the calculator replies with 4 on "2 + 2", replies with the
error-formatted string on the malformed "2 +", and every evaluation
failure on a non-empty argument lands in the same error-formatted reply —
cmd_calculate is total, no failure escapes it. -/
theorem calc_safe :
    (cmd_calculate "2 + 2" = "🧮 2 + 2 = 4"
      ∧ listContains (cmd_calculate "2 + 2").toList "4".toList = true)
    ∧ cmd_calculate "2 +"
        = "❌ Invalid expression: 2 +\nTry something like: 2 + 2 or 10 * 5"
    ∧ ∀ args : String, args ≠ "" → evalArith args = none →
        cmd_calculate args
          = "❌ Invalid expression: " ++ args
              ++ "\nTry something like: 2 + 2 or 10 * 5" := by
  refine ⟨⟨by decide, by decide⟩, by decide, ?_⟩
  intro args h1 h2
  simp [cmd_calculate, h1, h2]

/-- Witness for C7 at the malformed input "2 +". -/
theorem calc_safe_witness :
    cmd_calculate "2 +"
      = "❌ Invalid expression: " ++ "2 +"
          ++ "\nTry something like: 2 + 2 or 10 * 5" :=
  calc_safe.2.2 "2 +" (by decide) (by decide)

/-- C8: dispatch lowercases the first space-separated token and matches it
exactly against the registry; a miss yields the deterministic
unknown-command reply built from the fixed template, never an error, and a
hit invokes the bound handler on the remaining argument text. -/
theorem unknown_command_fallback (invoke : String → String → String → String)
    (n : Nat) (command sender : String) :
    (strToLower (splitOnce command).1 ∉ commandTokens →
        handle_command invoke n command sender
          = (n, "🤔 Unknown command: " ++ strToLower (splitOnce command).1
                  ++ "\nType !help for available commands."))
    ∧ (strToLower (splitOnce command).1 ∈ commandTokens →
        handle_command invoke n command sender
          = (n + 1, invoke (strToLower (splitOnce command).1)
                      (splitOnce command).2 sender)) := by
  constructor
  · intro h
    simp [handle_command, h]
  · intro h
    simp [handle_command, h]

/-- Witness for C8 at a concrete unknown, upper-case token. -/
theorem unknown_command_fallback_witness :
    handle_command (fun c _ _ => c) 3 "!BOGUS now" "@alice:example.com"
      = (3, "🤔 Unknown command: !bogus\nType !help for available commands.") := by
  rw [(unknown_command_fallback (fun c _ _ => c) 3 "!BOGUS now"
        "@alice:example.com").1 (by decide)]
  decide

/-- C9 counterexample: the unknown-token command "!frobnicate" is
dispatched — it reaches handle_command and gets a reply — yet the
commands-processed counter stays at 0, so not every dispatched command
message increments it. -/
theorem unknown_command_counter_unchanged :
    handle_command (fun c _ _ => c) 0 "!frobnicate" "@alice:example.com"
      = (0, "🤔 Unknown command: !frobnicate\nType !help for available commands.")
    ∧ (0 : Nat) ≠ 0 + 1 := by decide

/-- C9 as amended: a dispatched command whose lowered token is in the
registry returns the handler's reply and increments the commands-processed
counter by exactly one; a dispatched command with an unknown token returns
the fallback reply and leaves the counter unchanged. -/
theorem dispatch_counter_increment (invoke : String → String → String → String)
    (n : Nat) (command sender : String) :
    (strToLower (splitOnce command).1 ∈ commandTokens →
        (handle_command invoke n command sender).1 = n + 1
        ∧ (handle_command invoke n command sender).2
            = invoke (strToLower (splitOnce command).1) (splitOnce command).2 sender)
    ∧ (strToLower (splitOnce command).1 ∉ commandTokens →
        (handle_command invoke n command sender).1 = n) := by
  constructor
  · intro h
    simp [handle_command, h]
  · intro h
    simp [handle_command, h]

/-- Witness for the amended C9 at the registered token "!ping". -/
theorem dispatch_counter_increment_witness :
    (handle_command (fun c _ _ => c) 7 "!ping" "@alice:example.com").1 = 7 + 1 :=
  ((dispatch_counter_increment (fun c _ _ => c) 7 "!ping"
    "@alice:example.com").1 (by decide)).1

/-- C10: a failed poll round — non-200 status, timeout, or transport
exception — leaves the whole state (cursor included) unchanged and hands
nothing to the router; only a successful response rewrites the cursor. -/
theorem cursor_unchanged_on_poll_failure (st : BotState) (status : Nat)
    (msg : String) (d : SyncData) :
    sync_events st (.httpError status) = (st, none)
    ∧ sync_events st .timeout = (st, none)
    ∧ sync_events st (.transportError msg) = (st, none)
    ∧ (sync_events st (.success d)).1.sync_token = some d.next_batch :=
  ⟨rfl, rfl, rfl, rfl⟩

end MatrixonAIBot
